import Mathlib

/-!
Verification of the tavo-rules content-pipeline scripts
(`scripts/validate-rules.py`, `scripts/create-bundle-manifests.py`,
`scripts/generate-sarif.py`) against their natural-language specification.

Modelling conventions.  Python strings are Lean `String`s (the scripts only
manipulate code points, which `String.data` exposes one-to-one); Python lists
are `List`s; a dictionary with a fixed field set is a structure of
`Option`-typed fields (a `none` field is an absent key, matching
`dict.get(k, default)`); an insertion-ordered dictionary with dynamic keys is
an association list.  Fallible code is modelled with `Except`/`Option`.
External library calls (the YAML parser `yaml.safe_load`, the JSON-Schema
engine `jsonschema.validate`) are inputs: their outcome is passed in as an
argument rather than reimplemented.  Float-valued payload fields that no
checked property mentions (`confidence`, `cost_usd`, token counts) are left
out of the embedding.
-/

/-- Python `pre in s` / `s.startswith(pre)` helper on character lists:
`listStartsWith hay needle` holds when `needle` is a prefix of `hay`. -/
def listStartsWith : List Char → List Char → Bool
  | _, [] => true
  | [], _ :: _ => false
  | a :: as, b :: bs => a == b && listStartsWith as bs

/-- Substring containment on character lists (Python `needle in hay`). -/
def hasSubstr : List Char → List Char → Bool
  | [], needle => needle.isEmpty
  | a :: t, needle => listStartsWith (a :: t) needle || hasSubstr t needle

/-- Python `s.startswith(pre)`. -/
def pyStartsWith (s pre : String) : Bool :=
  listStartsWith s.data pre.data

/-- Python `needle in hay` (substring containment). -/
def strContainsSub (hay needle : String) : Bool :=
  hasSubstr hay.data needle.data

/-- Python `s.lower()` (ASCII-faithful, which covers all data the scripts
compare case-insensitively). -/
def pyLower (s : String) : String :=
  ⟨s.data.map Char.toLower⟩

/-- Python slicing `s[:n]` (counts code points, as Python does). -/
def pyTake (s : String) (n : Nat) : String :=
  ⟨s.data.take n⟩

/-- Python `s.replace(a, b)` for single-character patterns, the only shape the
scripts use (`"-"`, `"_"`, `"/"` to `" "` or `"-"`). -/
def pyReplace1 (a b : Char) (s : String) : String :=
  ⟨s.data.map fun c => if c = a then b else c⟩

/-- Worker for Python `str.title()`: uppercase every cased character that
follows a non-cased one, lowercase the rest.  The boolean records whether the
previous character was cased (alphabetic, for the ASCII data at hand). -/
def pyTitleAux : Bool → List Char → List Char
  | _, [] => []
  | prevCased, c :: rest =>
    if c.isAlpha then
      (if prevCased then c.toLower else c.toUpper) :: pyTitleAux true rest
    else
      c :: pyTitleAux false rest

/-- Python `s.title()`. -/
def pyTitle (s : String) : String :=
  ⟨pyTitleAux false s.data⟩

/-- Strict lexicographic comparison of character lists by code point, the
order Python `sorted` uses on strings. -/
def lexLt : List Char → List Char → Bool
  | [], [] => false
  | [], _ :: _ => true
  | _ :: _, [] => false
  | a :: as, b :: bs =>
    if a < b then true else if b < a then false else lexLt as bs

/-- Python `a < b` on strings. -/
def strLtB (a b : String) : Bool :=
  lexLt a.data b.data

/-- Insert a string into an already sorted list (ascending). -/
def insertStr (a : String) : List String → List String
  | [] => [a]
  | b :: t => if strLtB b a then b :: insertStr a t else a :: b :: t

/-- Insertion sort by code-point order, modelling Python `sorted`. -/
def sortStr : List String → List String
  | [] => []
  | a :: t => insertStr a (sortStr t)

/-- Python `sorted(list(set(l)))`: duplicates removed, then sorted. -/
def sortedUnique (l : List String) : List String :=
  sortStr l.dedup

/-- Lookup in an insertion-ordered dictionary modelled as an association
list (Python `d[k]` / `k in d`). -/
def alookup {α : Type} : List (String × α) → String → Option α
  | [], _ => none
  | (k, v) :: t, key => if key = k then some v else alookup t key

/-- Index of the first occurrence of a string in a list, if any. -/
def firstIdx : List String → String → Option Nat
  | [], _ => none
  | a :: t, k => if k = a then some 0 else (firstIdx t k).map (· + 1)

/-- The head character of a string, used to tell the validator's fixed error
messages apart from the interpolated ones. -/
def firstCharOf (s : String) : Option Char :=
  s.data.head?

namespace ValidateRules

/-!
Embedding of `scripts/validate-rules.py`.  The file-system and the two
external libraries are factored out: `validate_rule_file` receives the
outcome of `yaml.safe_load` as an `Except` and the outcome of
`jsonschema.validate` as an oracle returning the schema error message, if
any.  A rule document is modelled as the record of the fields that
`_validate_rule_content` reads; `heuristics` entries are kept as opaque
strings because the validator only tests the list for emptiness.
-/

/-- The `standards` mapping as read by `_validate_standards`.  Keys the
validator never reads (`iso_42001`, `nist_ai_rmf`, ...) are kept in `others`
so that the Python dict-truthiness test `if standards:` stays faithful. -/
structure Standards where
  cwe : Option (List String) := none
  capec : Option (List String) := none
  owasp_llm : Option (List String) := none
  others : List (String × List String) := []
deriving DecidableEq

/-- Python truthiness of the `standards` dict: `{}` is falsy, any dict with
at least one key (even mapping to an empty list) is truthy. -/
def Standards.isEmptyDict (s : Standards) : Bool :=
  s.cwe.isNone && s.capec.isNone && s.owasp_llm.isNone && s.others.isEmpty

/-- A rule document, as the record of the fields `_validate_rule_content`
accesses via `rule_data.get`. -/
structure RuleData where
  id : Option String := none
  rule_type : Option String := none
  compatible_models : Option (List String) := none
  heuristics : Option (List String) := none
  ai_analysis : Option (List (String × String)) := none
  standards : Option Standards := none
deriving DecidableEq

/-- Error message for a rule id lacking the namespace prefix
(`validate-rules.py` line 73). -/
def idErrorMsg (rule_id : String) : String :=
  "Rule ID must start with \x27tavoai-\x27: " ++ rule_id

/-- Error message for a compatible-models entry without a "/" separator
(`validate-rules.py` line 84). -/
def modelFormatMsg (m : String) : String :=
  "Invalid model format: " ++ m ++ " (expected \x27provider/model\x27)"

/-- `_validate_standards` (`validate-rules.py` lines 105-124): one error per
malformed CWE, CAPEC and OWASP-LLM entry, in iteration order. -/
def validate_standards (s : Standards) : List String :=
  ((s.cwe.getD []).filterMap fun c =>
    if pyStartsWith c "CWE-" then none
    else some ("Invalid CWE format: " ++ c ++ " (should be CWE-XXX)"))
  ++ ((s.capec.getD []).filterMap fun c =>
    if pyStartsWith c "CAPEC-" then none
    else some ("Invalid CAPEC format: " ++ c ++ " (should be CAPEC-XXX)"))
  ++ ((s.owasp_llm.getD []).filterMap fun o =>
    if pyStartsWith o "LLM" && o.length == 4 then none
    else some ("Invalid OWASP LLM format: " ++ o ++ " (should be LLMXX)"))

/-- Rule-ID check of `_validate_rule_content` (lines 70-73). -/
def idErrors (d : RuleData) : List String :=
  if pyStartsWith (d.id.getD "") "tavoai-" then []
  else [idErrorMsg (d.id.getD "")]

/-- Compatible-models check of `_validate_rule_content` (lines 75-84). -/
def compatErrors (d : RuleData) : List String :=
  let rt := d.rule_type.getD ""
  if rt = "hybrid" ∨ rt = "ai-only" then
    let cm := d.compatible_models.getD []
    if cm.isEmpty then ["AI rules must specify compatible_models"]
    else cm.filterMap fun m =>
      if m.data.contains '/' then none else some (modelFormatMsg m)
  else []

/-- Heuristics check of `_validate_rule_content` (lines 86-90): only the
rule types `opengrep`, `opa` and `hybrid` are required to carry
heuristics. -/
def heuristicsErrors (d : RuleData) : List String :=
  let rt := d.rule_type.getD ""
  if rt = "opengrep" ∨ rt = "opa" ∨ rt = "hybrid" then
    if (d.heuristics.getD []).isEmpty then
      ["Non-AI-only rules must have heuristics"]
    else []
  else []

/-- AI-analysis check of `_validate_rule_content` (lines 92-96). -/
def aiAnalysisErrors (d : RuleData) : List String :=
  let rt := d.rule_type.getD ""
  if rt = "hybrid" ∨ rt = "ai-only" then
    if (d.ai_analysis.getD []).isEmpty then
      ["AI rules must have ai_analysis section"]
    else []
  else []

/-- Standards check of `_validate_rule_content` (lines 98-101): only run
when the `standards` dict is truthy. -/
def standardsErrors (d : RuleData) : List String :=
  let std := d.standards.getD {}
  if std.isEmptyDict then [] else validate_standards std

/-- `_validate_rule_content` (lines 66-103): the business-rule checks, run
in source order with all errors accumulated into one list. -/
def validate_rule_content (d : RuleData) : List String :=
  idErrors d ++ compatErrors d ++ heuristicsErrors d
    ++ aiAnalysisErrors d ++ standardsErrors d

/-- `validate_rule_file` (lines 42-64).  `parsed` is the outcome of
`yaml.safe_load` (`.error` = `yaml.YAMLError`), `schemaCheck` the outcome of
`jsonschema.validate` on the parsed document (`some msg` =
`jsonschema.ValidationError` with message `msg`).  Each raised exception
short-circuits to its `except` clause, so the error list then holds exactly
that one message; the business-rule checks of `_validate_rule_content` run
only when both succeed.  Returns `(len(errors) == 0, errors)`. -/
def validate_rule_file (schemaCheck : RuleData → Option String)
    (parsed : Except String RuleData) : Bool × List String :=
  let errors : List String :=
    match parsed with
    | .error e => ["YAML parsing error: " ++ e]
    | .ok d =>
      match schemaCheck d with
      | some m => ["Schema validation error: " ++ m]
      | none => validate_rule_content d
  (errors.isEmpty, errors)

/-- Schema oracle used in the C1 counterexample: the schema check fails on
every document with a fixed message. -/
def c1Oracle : RuleData → Option String := fun _ => some "is not valid"

/-- Document for the C1 counterexample: its id is well-formed but, having
`rule_type` hybrid and no `compatible_models`, it violates a business
rule. -/
def c1Doc : RuleData := { id := some "tavoai-x", rule_type := some "hybrid" }

/-- Schema oracle for the C1 witness: rejects exactly the documents without
`compatible_models`. -/
def c1WitOracle : RuleData → Option String := fun d =>
  if d.compatible_models.isNone then some "missing compatible_models" else none

/-- Witness document rejected by `c1WitOracle`. -/
def c1WitBad : RuleData := { id := some "tavoai-a", rule_type := some "hybrid" }

/-- Witness document accepted by `c1WitOracle`. -/
def c1WitGood : RuleData :=
  { id := some "bad-id", rule_type := some "hybrid",
    compatible_models := some ["openai/gpt-4"] }

/-- Document for the C4 counterexample: `rule_type` is the spec's own
heuristic-only value and the `heuristics` field is absent. -/
def c4Doc : RuleData := { rule_type := some "heuristic-only" }

/-- Witness document for C5: hybrid rule type, no compatible models, a bad
id, no heuristics, no ai_analysis and one malformed CWE entry — every
independent check fails and every failure is reported. -/
def c5Doc : RuleData :=
  { id := some "owasp-llm-01", rule_type := some "hybrid",
    standards := some { cwe := some ["89"] } }

end ValidateRules

namespace BundleManifests

/-!
Embedding of `scripts/create-bundle-manifests.py`.  The file system is an
explicit input: a `BundleDir` carries the directory names and the discovered
rule files (each with its raw content and the outcome of `yaml.safe_load` on
it), so that every function of the script becomes a pure function of that
input.  Python sets are represented by collecting into lists and applying
`sortedUnique` where the script applies `sorted(list(...))`; insertion-
ordered dicts with dynamic keys are association lists.
-/

/-- A value in a rule's `standards` mapping: either a YAML list of strings
or a scalar (which `_analyze_bundle_rules` stringifies with `str`). -/
inductive StdVal where
  | strs (l : List String)
  | scalar (s : String)
deriving DecidableEq

/-- The fields `_load_rule_metadata` reads from a successfully parsed rule
document. -/
structure LoadedRule where
  id : Option String := none
  name : Option String := none
  version : Option String := none
  category : Option String := none
  subcategory : Option String := none
  severity : Option String := none
  standards : Option (List (String × StdVal)) := none
  tags : Option (List String) := none
deriving DecidableEq

/-- Outcome of `yaml.safe_load` on a rule file: an exception, `None` (empty
or comment-only input), or a parsed document. -/
inductive ParseOutcome where
  | err (msg : String)
  | ok (v : Option LoadedRule)
deriving DecidableEq

/-- The metadata record `_load_rule_metadata` returns. -/
structure RuleMetadata where
  id : String
  name : String
  version : String
  category : String
  subcategory : String
  severity : String
  standards : List (String × StdVal)
  tags : List String
deriving DecidableEq

/-- The shell-heredoc contamination test of `_load_rule_metadata` (line 40):
content holding "EOF", "cat >" or "<<" is treated as corrupted. -/
def hasHeredocMarkers (content : String) : Bool :=
  strContainsSub content "EOF" || strContainsSub content "cat >"
    || strContainsSub content "<<"

/-- `_get_default_metadata` (lines 68-80): the record derived purely from
the filename stem when parsing fails. -/
def get_default_metadata (stem : String) : RuleMetadata :=
  { id := stem,
    name := pyTitle (pyReplace1 '_' ' ' (pyReplace1 '-' ' ' stem)),
    version := "1.0",
    category := "security",
    subcategory := "unknown",
    severity := "medium",
    standards := [],
    tags := [] }

/-- `_load_rule_metadata` (lines 33-66).  The heredoc test runs on the raw
content before parsing; a parse exception or a `None` document also degrades
to the default record; otherwise the fields are extracted with their
source defaults.  The surrounding `except Exception` clause makes the
function total. -/
def load_rule_metadata (stem content : String) (parsed : ParseOutcome) :
    RuleMetadata :=
  if hasHeredocMarkers content then get_default_metadata stem
  else
    match parsed with
    | .err _ => get_default_metadata stem
    | .ok none => get_default_metadata stem
    | .ok (some r) =>
      { id := r.id.getD "",
        name := r.name.getD "",
        version := r.version.getD "1.0",
        category := r.category.getD "",
        subcategory := r.subcategory.getD "",
        severity := r.severity.getD "medium",
        standards := r.standards.getD [],
        tags := r.tags.getD [] }

/-- One rule file discovered under `rules/`: its filename, stem, raw content
and the YAML parser's outcome on it. -/
structure RuleFile where
  name : String
  stem : String
  content : String
  parsed : ParseOutcome
deriving DecidableEq

/-- A bundle directory as the script sees it: its own name, its parent
directory's name, whether `rules/` exists and is a directory, and the rule
files `glob("*.yaml") + glob("*.yml")` discovers there, in discovery
order. -/
structure BundleDir where
  name : String
  parentName : String
  rulesDirExists : Bool
  rulesDirIsDir : Bool
  ruleFiles : List RuleFile
deriving DecidableEq

/-- The entry summarising one rule inside the analysis result. -/
structure RuleSummary where
  id : String
  name : String
  version : String
  severity : String
  category : String
  tags : List String
deriving DecidableEq

/-- The dictionary `_analyze_bundle_rules` returns.  The early return for a
missing `rules/` directory (line 133) builds a dict with only the `rules`,
`categories` and `severities` keys, so the remaining keys are `Option`s that
are `none` exactly on that path. -/
structure Analysis where
  rules : List RuleSummary
  categories : List String
  severities : List String
  standards : Option (List (String × List String)) := none
  rule_count : Option Nat := none
  rule_files : Option (List RuleFile) := none
deriving DecidableEq

/-- Append values under a key of an insertion-ordered dict-of-lists,
creating the key at the end when absent (Python `standards[std_type]`
set-update; deduplication happens later in `sortedUnique`). -/
def updateAssoc : List (String × List String) → String → List String →
    List (String × List String)
  | [], k, vs => [(k, vs)]
  | (k0, v0) :: t, k, vs =>
    if k0 = k then (k0, v0 ++ vs) :: t else (k0, v0) :: updateAssoc t k vs

/-- The list of strings a `StdVal` contributes to the aggregate (line
166-169: lists are unioned element-wise, scalars are stringified and
added). -/
def StdVal.values : StdVal → List String
  | .strs l => l
  | .scalar s => [s]

/-- `_analyze_bundle_rules` (lines 129-186). -/
def analyze_bundle_rules (b : BundleDir) : Analysis :=
  if !b.rulesDirExists then
    { rules := [], categories := [], severities := [] }
  else
    let rule_files := if b.rulesDirIsDir then b.ruleFiles else []
    let metas := rule_files.map fun f =>
      load_rule_metadata f.stem f.content f.parsed
    let stdAgg := metas.foldl (fun acc m =>
      m.standards.foldl (fun acc2 kv => updateAssoc acc2 kv.1 kv.2.values)
        acc) []
    { rules := metas.map fun m =>
        { id := m.id, name := m.name, version := m.version,
          severity := m.severity, category := m.category, tags := m.tags },
      categories := sortedUnique (metas.map RuleMetadata.category),
      severities := sortedUnique (metas.map RuleMetadata.severity),
      standards := some (stdAgg.map fun kv => (kv.1, sortedUnique kv.2)),
      rule_count := some metas.length,
      rule_files := some rule_files }

/-- `_determine_pricing_tier` (lines 82-93): substring classifier over the
qualified bundle name. -/
def determine_pricing_tier (bundle_name : String) : String :=
  if strContainsSub bundle_name "free"
      || strContainsSub bundle_name "owasp-llm-basic" then "free"
  else if strContainsSub bundle_name "ai-enhanced"
      || strContainsSub bundle_name "pro"
      || strContainsSub bundle_name "compliance" then "paid"
  else "enterprise"

/-- The static description table of `_get_bundle_description` (lines
97-104), in source order. -/
def descTable : List (String × String) :=
  [("free/owasp-llm-basic",
    "Heuristic-only OWASP LLM Top 10 rules for basic security scanning"),
   ("ai-enhanced/owasp-llm-pro",
    "AI-enhanced OWASP LLM Top 10 analysis with deep contextual understanding"),
   ("ai-enhanced/iso-42001-compliance",
    "Comprehensive ISO 42001 AI governance compliance rules"),
   ("ai-enhanced/mit-ai-risk-repo",
    "MIT AI Risk Repository rules covering emerging AI safety concerns"),
   ("ai-enhanced/ai-ethics",
    "AI Ethics rules for fairness, transparency, and responsible AI development"),
   ("ai-enhanced/bias-detection",
    "Bias detection rules for identifying and mitigating AI bias issues")]

/-- `_get_bundle_description` (lines 95-115): exact match, then first
partial match (either containment direction), then a templated fallback. -/
def get_bundle_description (bundle_name : String) : String :=
  match alookup descTable bundle_name with
  | some d => d
  | none =>
    match descTable.find? fun kv =>
        strContainsSub bundle_name kv.1 || strContainsSub kv.1 bundle_name with
    | some kv => kv.2
    | none => "TavoAI security rules bundle: " ++ bundle_name

/-- The aggregate `metadata` block of a manifest. -/
structure ManifestMetadata where
  rule_count : Nat
  categories : List String
  severities : List String
  standards : List (String × List String)
  compatible_scanners : List String
  min_scanner_version : String
deriving DecidableEq

/-- A bundle manifest as `create_bundle_manifest` builds it. -/
structure Manifest where
  id : String
  name : String
  description : String
  version : String
  artifact_type : String
  pricing_tier : String
  author : String
  license : String
  homepage : String
  documentation : String
  created_at : String
  updated_at : String
  artifacts : List String
  dependencies : List String
  tags : List String
  metadata : ManifestMetadata
deriving DecidableEq

/-- `create_bundle_manifest` (lines 188-233).  `now` stands for
`datetime.utcnow().isoformat() + "Z"` (the script calls it twice within the
same statement; both timestamp fields are modelled with the one call).  The
manifest dict literal reads `analysis["rule_count"]` and
`analysis["standards"]` with bare indexing in that order, so a missing key
raises `KeyError` — modelled as the `Except.error` branches. -/
def create_bundle_manifest (now : String) (b : BundleDir) :
    Except String Manifest :=
  let bundle_name := b.name
  let full_bundle_name :=
    if b.parentName = "free" ∨ b.parentName = "ai-enhanced"
        ∨ b.parentName = "enterprise" then
      b.parentName ++ "/" ++ bundle_name
    else bundle_name
  let analysis := analyze_bundle_rules b
  let rule_files := analysis.rule_files.getD []
  match analysis.rule_count with
  | none => .error "KeyError: rule_count"
  | some rc =>
    match analysis.standards with
    | none => .error "KeyError: standards"
    | some stds =>
      .ok { id := pyReplace1 '_' '-' (pyReplace1 '/' '-' bundle_name),
            name := pyTitle (pyReplace1 '_' ' ' (pyReplace1 '-' ' ' bundle_name)),
            description := get_bundle_description full_bundle_name,
            version := "1.0.0",
            artifact_type := "rule_bundle",
            pricing_tier := determine_pricing_tier full_bundle_name,
            author := "TavoAI Security Team",
            license := "MIT",
            homepage := "https://github.com/TavoAI/tavo-rules",
            documentation := "https://docs.tavoai.com/rules",
            created_at := now,
            updated_at := now,
            artifacts := rule_files.map fun f => "rules/" ++ f.name,
            dependencies := [],
            tags := analysis.categories
              ++ analysis.severities.map fun s => "severity-" ++ s,
            metadata := { rule_count := rc,
                          categories := analysis.categories,
                          severities := analysis.severities,
                          standards := stds,
                          compatible_scanners := ["tavoai", "semgrep", "opengrep"],
                          min_scanner_version := "1.0.0" } }

/-- Blank out the two generation-time timestamp fields. -/
def Manifest.stripTimestamps (m : Manifest) : Manifest :=
  { m with created_at := "", updated_at := "" }

/-- A bundle directory whose `rules/` subdirectory does not exist. -/
def c2Bundle : BundleDir :=
  { name := "owasp-llm-basic", parentName := "free",
    rulesDirExists := false, rulesDirIsDir := false, ruleFiles := [] }

end BundleManifests

namespace GenerateSarif

/-!
Embedding of `scripts/generate-sarif.py`.  A finding is the record of the
fields the generator reads; JSON objects built by the script become
structures whose `Option` fields are keys added conditionally.  The fixed
run envelope (`$schema`, version, taxonomies, automationDetails,
invocations) consists of constants independent of the findings and is not
modelled; neither are the float-valued properties (`confidence`,
`cost_usd`, token counts) nor the derived taxonomy `relationships`, which
no checked property mentions.  The rule-definition/result bookkeeping of
`generate_sarif` — the `rules` array, the `rules_map` dict and the
`results` list — is modelled exactly, as a fold over the findings.
-/

/-- One finding from the results file, as the record of the fields
`generate_sarif`, `_create_rule_definition` and `_create_result_entry`
read. -/
structure Finding where
  rule_id : Option String := none
  rule_name : Option String := none
  description : Option String := none
  full_description : Option String := none
  message : Option String := none
  severity : Option String := none
  category : Option String := none
  subcategory : Option String := none
  rule_type : Option String := none
  file_path : Option String := none
  line : Option Int := none
  start_line : Option Int := none
  end_line : Option Int := none
  column : Option Int := none
  end_column : Option Int := none
  snippet : Option String := none
  remediation : Option String := none
  help_uri : Option String := none
  tags : Option (List String) := none
  standards : Option (List (String × List String)) := none
deriving DecidableEq

/-- `_map_severity_to_level` (lines 328-337): dict lookup on the lowercased
severity with default "warning". -/
def map_severity_to_level (severity : String) : String :=
  let t := pyLower severity
  if t = "critical" then "error"
  else if t = "high" then "error"
  else if t = "medium" then "warning"
  else if t = "low" then "note"
  else if t = "info" then "note"
  else "warning"

/-- Modelled from the spec: the fixed severity-to-level table as claim C7
words it — critical/high to error, medium to warning, low/info to note,
anything else to warning.  Kept separate from `map_severity_to_level` to
compare the claim against the code. -/
def severityLevelSpec (t : String) : String :=
  if t = "critical" ∨ t = "high" then "error"
  else if t = "medium" then "warning"
  else if t = "low" ∨ t = "info" then "note"
  else "warning"

/-- The `region` object of a physical location; each `Option` field is a
key the script adds conditionally. -/
structure Region where
  startLine : Option Int := none
  endLine : Option Int := none
  startColumn : Option Int := none
  endColumn : Option Int := none
  snippet : Option String := none
deriving DecidableEq

/-- One entry of a result's `locations` array
(`physicalLocation.artifactLocation.uri` plus the optional
`physicalLocation.region`). -/
structure Location where
  uri : String
  region : Option Region := none
deriving DecidableEq

/-- The region-building block of `_create_result_entry` (lines 268-291):
`startLine` comes from `start_line` when both `start_line` and `end_line`
are present, else from `line`; `endLine` only when both are present;
columns and the 200-character-truncated snippet are independent; the region
is attached only when non-empty (`if region:`). -/
def buildRegion (f : Finding) : Option Region :=
  let startLine : Option Int :=
    match f.start_line, f.end_line with
    | some s, some _ => some s
    | _, _ => f.line
  let endLine : Option Int :=
    match f.start_line, f.end_line with
    | some _, some e => some e
    | _, _ => none
  let r : Region :=
    { startLine := startLine, endLine := endLine,
      startColumn := f.column, endColumn := f.end_column,
      snippet := f.snippet.map fun s => pyTake s 200 }
  if r = ({} : Region) then none else some r

/-- A SARIF result entry as `_create_result_entry` builds it (lines
250-326); the trailing property fields model the string-valued entries of
the `properties` dict. -/
structure ResultEntry where
  ruleId : String
  ruleIndex : Nat
  level : String
  message : String
  locations : List Location
  category : String
  severity : String
  rule_type : String
  remediation : Option String := none
  tags : Option (List String) := none
  standards : Option (List (String × List String)) := none
deriving DecidableEq

/-- `_create_result_entry` (lines 250-326). -/
def create_result_entry (f : Finding) (rule_index : Nat) : ResultEntry :=
  { ruleId := f.rule_id.getD "unknown",
    ruleIndex := rule_index,
    level := map_severity_to_level (f.severity.getD "medium"),
    message := f.message.getD "Security finding detected",
    locations :=
      match f.file_path with
      | none => []
      | some p => [{ uri := p, region := buildRegion f }],
    category := f.category.getD "security",
    severity := f.severity.getD "medium",
    rule_type := f.rule_type.getD "unknown",
    remediation := f.remediation,
    tags := f.tags,
    standards := f.standards }

/-- A rule definition in `runs[0].tool.driver.rules`, with the SARIF
truncation limits of `_create_rule_definition` (lines 135-234); the
`properties` and taxonomy `relationships` blocks are left out (no checked
property mentions them). -/
structure RuleDef where
  id : String
  name : String
  shortDescription : String
  fullDescription : Option String := none
  helpText : Option String := none
  helpUri : Option String := none
deriving DecidableEq

/-- `_create_rule_definition` (lines 135-234). -/
def create_rule_definition (f : Finding) : RuleDef :=
  let rule_id := f.rule_id.getD "unknown"
  { id := rule_id,
    name := f.rule_name.getD rule_id,
    shortDescription := pyTake (f.description.getD "Security finding") 200,
    fullDescription := f.full_description.map fun s => pyTake s 1000,
    helpText := f.remediation.map fun s => pyTake s 5000,
    helpUri := f.help_uri }

/-- The mutable state of the `generate_sarif` loop (lines 103-122): the
`rules` array of the driver, the `rules_map` dict from rule id to its index
in that array, and the accumulated `results` list. -/
structure SarifState where
  rules : List RuleDef
  rulesMap : List (String × Nat)
  results : List ResultEntry

/-- One iteration of the loop in `generate_sarif` (lines 108-120): register
an unseen rule id at the end of the rules array, then emit the result entry
with the index stored in `rules_map`. -/
def processFinding (s : SarifState) (f : Finding) : SarifState :=
  let rule_id := f.rule_id.getD "unknown"
  match alookup s.rulesMap rule_id with
  | some idx =>
    { s with results := s.results ++ [create_result_entry f idx] }
  | none =>
    let rules := s.rules ++ [create_rule_definition f]
    { rules := rules,
      rulesMap := s.rulesMap ++ [(rule_id, rules.length - 1)],
      results := s.results ++ [create_result_entry f (rules.length - 1)] }

/-- `generate_sarif` (lines 72-133), restricted to the parts that depend on
the findings: the fold of `processFinding` over `results["findings"]`
starting from the empty rules array, empty rules map and empty results
list. -/
def generate_sarif (findings : List Finding) : SarifState :=
  findings.foldl processFinding ⟨[], [], []⟩

/-- The rule id under which `generate_sarif` files a finding. -/
def ridOf (f : Finding) : String := f.rule_id.getD "unknown"

/-- The `rules_map` dict mirrors the ids of the `rules` array: looking up a
rule id yields the index of its first (and only) occurrence. -/
def MapInv (s : SarifState) : Prop :=
  ∀ k, alookup s.rulesMap k = firstIdx (s.rules.map RuleDef.id) k

/-- A result entry points into the rules array at a definition carrying its
own rule id. -/
def ResOK (rules : List RuleDef) (r : ResultEntry) : Prop :=
  ∃ h : r.ruleIndex < rules.length, (rules.get ⟨r.ruleIndex, h⟩).id = r.ruleId

/-- Loop invariant of `generate_sarif`: the map mirrors the rules array,
rule ids are pairwise distinct, and every emitted result indexes its own
rule. -/
def Inv (s : SarifState) : Prop :=
  MapInv s ∧ (s.rules.map RuleDef.id).Nodup ∧ ∀ r ∈ s.results, ResOK s.rules r

/-- Claim C7 counterexample severity: "HIGH" differs from all five listed
lowercase severities yet maps to "error". -/
def c7Sev : String := "HIGH"

/-- Finding for the C8 witness: critical severity, a file path and no
location detail at all. -/
def c8Finding : Finding :=
  { rule_id := some "owasp-llm-01", severity := some "critical",
    message := some "Direct user input passed to LLM",
    file_path := some "src/chat.py" }

/-- Findings for the C10 witness: two distinct rule ids, the first one
occurring twice. -/
def c10fA : Finding :=
  { rule_id := some "r1", severity := some "high", file_path := some "a.py" }

/-- Second witness finding with a fresh rule id. -/
def c10fB : Finding := { rule_id := some "r2" }

/-- The C10 witness findings list. -/
def c10Findings : List Finding := [c10fA, c10fB, c10fA]

end GenerateSarif

theorem data_append (a b : String) : (a ++ b).data = a.data ++ b.data := by
  cases a; cases b; rfl

theorem firstCharOf_append (p x : String) (c : Char)
    (h : firstCharOf p = some c) : firstCharOf (p ++ x) = some c := by
  unfold firstCharOf at h ⊢
  rw [data_append]
  cases hp : p.data with
  | nil => simp [hp] at h
  | cons a t => rw [hp] at h; simpa using h

theorem ne_of_firstChar {s t : String} (h : firstCharOf s ≠ firstCharOf t) :
    s ≠ t := fun he => h (by rw [he])

theorem count_eq_zero_of_ne {l : List String} {t : String}
    (h : ∀ e ∈ l, e ≠ t) : l.count t = 0 :=
  List.count_eq_zero.mpr fun hm => h t hm rfl

theorem firstIdx_eq_none {l : List String} {k : String} :
    firstIdx l k = none ↔ ¬ k ∈ l := by
  induction l with
  | nil => simp [firstIdx]
  | cons a t ih =>
    by_cases h : k = a
    · simp [firstIdx, h]
    · simp [firstIdx, h, ih]

theorem firstIdx_spec {l : List String} {k : String} {i : Nat}
    (h : firstIdx l k = some i) :
    ∃ hi : i < l.length, l.get ⟨i, hi⟩ = k := by
  induction l generalizing i with
  | nil => cases h
  | cons a t ih =>
    by_cases hk : k = a
    · simp only [firstIdx, if_pos hk] at h
      cases h
      exact ⟨Nat.succ_pos _, hk.symm⟩
    · simp only [firstIdx, if_neg hk] at h
      rcases Option.map_eq_some'.mp h with ⟨j, hj, hji⟩
      obtain ⟨hlt, hget⟩ := ih hj
      subst hji
      exact ⟨Nat.succ_lt_succ hlt, by simpa using hget⟩

theorem firstIdx_concat_of_some {l : List String} {k : String} {i : Nat}
    (h : firstIdx l k = some i) (a : String) :
    firstIdx (l ++ [a]) k = some i := by
  induction l generalizing i with
  | nil => cases h
  | cons b t ih =>
    by_cases hk : k = b
    · simp only [firstIdx, if_pos hk] at h ⊢
      exact h
    · simp only [List.cons_append, firstIdx, if_neg hk, List.append_eq] at h ⊢
      rcases Option.map_eq_some'.mp h with ⟨j, hj, hji⟩
      rw [ih hj]
      simpa using hji

theorem firstIdx_concat_of_none {l : List String} {k : String}
    (h : firstIdx l k = none) (a : String) :
    firstIdx (l ++ [a]) k = if k = a then some l.length else none := by
  induction l with
  | nil => simp [firstIdx]
  | cons b t ih =>
    by_cases hk : k = b
    · simp [firstIdx, hk] at h
    · simp only [List.cons_append, firstIdx, if_neg hk, List.append_eq] at h ⊢
      rw [ih (Option.map_eq_none'.mp h)]
      by_cases hka : k = a
      · simp [hka, List.length_cons]
      · simp [hka]

theorem alookup_append {α : Type} (m m2 : List (String × α)) (k : String) :
    alookup (m ++ m2) k =
      match alookup m k with
      | some v => some v
      | none => alookup m2 k := by
  induction m with
  | nil => simp [alookup]
  | cons p t ih =>
    obtain ⟨k0, v0⟩ := p
    by_cases h : k = k0
    · simp [alookup, h]
    · simp [alookup, h, ih]

namespace ValidateRules

/-- Head-character of the rule-ID error message. -/
theorem idErrorMsg_firstChar (r : String) :
    firstCharOf (idErrorMsg r) = some 'R' :=
  firstCharOf_append _ _ _ rfl

/-- Head-character of the model-format error message. -/
theorem modelFormatMsg_firstChar (m : String) :
    firstCharOf (modelFormatMsg m) = some 'I' := by
  unfold modelFormatMsg
  exact firstCharOf_append _ _ _ (firstCharOf_append _ _ _ rfl)

/-- Every message `_validate_standards` emits starts with the character I
(they all begin with "Invalid ..."). -/
theorem validate_standards_firstChar (s : Standards) :
    ∀ e ∈ validate_standards s, firstCharOf e = some 'I' := by
  intro e he
  unfold validate_standards at he
  rcases List.mem_append.mp he with h12 | h3
  · rcases List.mem_append.mp h12 with h1 | h2
    · rcases List.mem_filterMap.mp h1 with ⟨a, _, ha⟩
      split at ha
      · cases ha
      · cases ha
        exact firstCharOf_append _ _ _ (firstCharOf_append _ _ _ rfl)
    · rcases List.mem_filterMap.mp h2 with ⟨a, _, ha⟩
      split at ha
      · cases ha
      · cases ha
        exact firstCharOf_append _ _ _ (firstCharOf_append _ _ _ rfl)
  · rcases List.mem_filterMap.mp h3 with ⟨a, _, ha⟩
    split at ha
    · cases ha
    · cases ha
      exact firstCharOf_append _ _ _ (firstCharOf_append _ _ _ rfl)

/-- No rule-ID error message equals `t` when `t` does not start with R. -/
theorem count_idErrors_eq_zero (d : RuleData) (t : String)
    (ht : firstCharOf t ≠ some 'R') : (idErrors d).count t = 0 := by
  apply count_eq_zero_of_ne
  intro e he
  unfold idErrors at he
  split at he
  · cases he
  · rw [List.mem_singleton] at he
    subst he
    exact ne_of_firstChar (by rw [idErrorMsg_firstChar]; exact Ne.symm ht)

/-- No standards error message equals `t` when `t` does not start with I. -/
theorem count_standardsErrors_eq_zero (d : RuleData) (t : String)
    (ht : firstCharOf t ≠ some 'I') : (standardsErrors d).count t = 0 := by
  apply count_eq_zero_of_ne
  intro e he
  simp only [standardsErrors] at he
  split at he
  · cases he
  · exact ne_of_firstChar
      (by rw [validate_standards_firstChar _ e he]; exact Ne.symm ht)

/-- Claim C1 (counterexample): for a document that fails the JSON-Schema
check and also violates the compatible-models business rule, the error list
returned by `validate_rule_file` holds only the schema error — the
business-rule error the claim requires is absent, so business-rule checks do
not run regardless of schema outcome. -/
theorem c1_counterexample :
    "AI rules must specify compatible_models" ∈ validate_rule_content c1Doc
    ∧ (validate_rule_file c1Oracle (.ok c1Doc)).2 =
        ["Schema validation error: is not valid"]
    ∧ "AI rules must specify compatible_models" ∉
        (validate_rule_file c1Oracle (.ok c1Doc)).2 := by
  decide

/-- Claim C1 (amended): business-rule checks run only when the JSON-Schema
check succeeds.  When the schema check fails, the returned error list is
exactly the one schema error (business-rule errors of the same document are
not accumulated); when it succeeds, the returned list is exactly the fully
accumulated business-rule error list. -/
theorem c1_schema_failure_short_circuits (sc : RuleData → Option String)
    (dBad dGood : RuleData) (m : String)
    (h1 : sc dBad = some m) (h2 : sc dGood = none) :
    validate_rule_file sc (.ok dBad) =
      (false, ["Schema validation error: " ++ m])
    ∧ (validate_rule_file sc (.ok dGood)).2 = validate_rule_content dGood := by
  constructor
  · simp [validate_rule_file, h1]
  · simp [validate_rule_file, h2]

/-- Witness for the amended claim C1 at concrete inputs. -/
theorem c1_schema_failure_short_circuits_witness :
    c1WitOracle c1WitBad = some "missing compatible_models"
    ∧ c1WitOracle c1WitGood = none
    ∧ (validate_rule_file c1WitOracle (.ok c1WitBad) =
        (false, ["Schema validation error: missing compatible_models"])
      ∧ (validate_rule_file c1WitOracle (.ok c1WitGood)).2 =
          validate_rule_content c1WitGood) :=
  ⟨by decide, by decide,
    c1_schema_failure_short_circuits c1WitOracle c1WitBad c1WitGood
      "missing compatible_models" (by decide) (by decide)⟩

/-- Claim C4 (counterexample): a document whose `rule_type` is
"heuristic-only" — not ai-only — with no `heuristics` field receives zero
heuristics-related errors, though the claim requires one: the code keys the
check on the rule types opengrep, opa and hybrid only. -/
theorem c4_counterexample :
    (c4Doc.heuristics.getD []).isEmpty = true
    ∧ ¬ c4Doc.rule_type.getD "" = "ai-only"
    ∧ (validate_rule_content c4Doc).count
        "Non-AI-only rules must have heuristics" = 0 := by
  decide

/-- Claim C4 (amended): the business-rule check reports the heuristics error
exactly when the heuristics list is empty or absent and the `rule_type` is
one of opengrep, opa, hybrid; in particular an ai-only document with no
heuristics (and any document whose rule type lies outside those three)
yields zero heuristics-related errors. -/
theorem c4_heuristics_error_condition (d : RuleData) :
    (validate_rule_content d).count "Non-AI-only rules must have heuristics"
      = if (d.rule_type.getD "" = "opengrep" ∨ d.rule_type.getD "" = "opa"
              ∨ d.rule_type.getD "" = "hybrid")
            ∧ (d.heuristics.getD []).isEmpty = true
        then 1 else 0 := by
  have h1 : (idErrors d).count "Non-AI-only rules must have heuristics" = 0 :=
    count_idErrors_eq_zero d _ (by decide)
  have h2 : (compatErrors d).count "Non-AI-only rules must have heuristics"
      = 0 := by
    apply count_eq_zero_of_ne
    intro e he
    simp only [compatErrors] at he
    split at he
    · split at he
      · rw [List.mem_singleton] at he; subst he; decide
      · rcases List.mem_filterMap.mp he with ⟨a, _, ha⟩
        split at ha
        · cases ha
        · cases ha
          exact ne_of_firstChar (by rw [modelFormatMsg_firstChar]; decide)
    · cases he
  have h4 : (aiAnalysisErrors d).count "Non-AI-only rules must have heuristics"
      = 0 := by
    apply count_eq_zero_of_ne
    intro e he
    simp only [aiAnalysisErrors] at he
    split at he
    · split at he
      · rw [List.mem_singleton] at he; subst he; decide
      · cases he
    · cases he
  have h5 : (standardsErrors d).count "Non-AI-only rules must have heuristics"
      = 0 := count_standardsErrors_eq_zero d _ (by decide)
  have h3 : (heuristicsErrors d).count "Non-AI-only rules must have heuristics"
      = if (d.rule_type.getD "" = "opengrep" ∨ d.rule_type.getD "" = "opa"
              ∨ d.rule_type.getD "" = "hybrid")
            ∧ (d.heuristics.getD []).isEmpty = true
        then 1 else 0 := by
    simp only [heuristicsErrors]
    split
    · split
      · simp_all
      · simp_all
    · simp_all
  unfold validate_rule_content
  simp [List.count_append, h1, h2, h3, h4, h5]

/-- Claim C5: for every rule document with `rule_type` hybrid and
`compatible_models` absent or empty, the business-rule check reports exactly
one "must specify compatible_models" error, and the same returned list still
carries every other independently failing check — the ID-prefix error, the
heuristics error, the ai_analysis error and all standards-format errors —
so no short-circuit happens after the first error. -/
theorem c5_compat_error_accumulates (d : RuleData)
    (hrt : d.rule_type.getD "" = "hybrid")
    (hcm : (d.compatible_models.getD []).isEmpty = true) :
    (validate_rule_content d).count "AI rules must specify compatible_models"
      = 1
    ∧ (pyStartsWith (d.id.getD "") "tavoai-" = false →
        idErrorMsg (d.id.getD "") ∈ validate_rule_content d)
    ∧ ((d.heuristics.getD []).isEmpty = true →
        "Non-AI-only rules must have heuristics" ∈ validate_rule_content d)
    ∧ ((d.ai_analysis.getD []).isEmpty = true →
        "AI rules must have ai_analysis section" ∈ validate_rule_content d)
    ∧ (∀ e ∈ standardsErrors d, e ∈ validate_rule_content d) := by
  have hcompat : compatErrors d = ["AI rules must specify compatible_models"] := by
    simp [compatErrors, hrt, hcm]
  refine ⟨?_, ?_, ?_, ?_, ?_⟩
  · have h1 : (idErrors d).count "AI rules must specify compatible_models" = 0 :=
      count_idErrors_eq_zero d _ (by decide)
    have h3 : (heuristicsErrors d).count
        "AI rules must specify compatible_models" = 0 := by
      apply count_eq_zero_of_ne
      intro e he
      simp only [heuristicsErrors] at he
      split at he
      · split at he
        · rw [List.mem_singleton] at he; subst he; decide
        · cases he
      · cases he
    have h4 : (aiAnalysisErrors d).count
        "AI rules must specify compatible_models" = 0 := by
      apply count_eq_zero_of_ne
      intro e he
      simp only [aiAnalysisErrors] at he
      split at he
      · split at he
        · rw [List.mem_singleton] at he; subst he; decide
        · cases he
      · cases he
    have h5 : (standardsErrors d).count
        "AI rules must specify compatible_models" = 0 :=
      count_standardsErrors_eq_zero d _ (by decide)
    unfold validate_rule_content
    simp [List.count_append, h1, hcompat, h3, h4, h5]
  · intro h
    have : idErrorMsg (d.id.getD "") ∈ idErrors d := by
      simp [idErrors, h]
    unfold validate_rule_content
    simp only [List.mem_append]
    exact Or.inl (Or.inl (Or.inl (Or.inl this)))
  · intro h
    have : "Non-AI-only rules must have heuristics" ∈ heuristicsErrors d := by
      simp [heuristicsErrors, hrt, h]
    unfold validate_rule_content
    simp only [List.mem_append]
    exact Or.inl (Or.inl (Or.inr this))
  · intro h
    have : "AI rules must have ai_analysis section" ∈ aiAnalysisErrors d := by
      simp [aiAnalysisErrors, hrt, h]
    unfold validate_rule_content
    simp only [List.mem_append]
    exact Or.inl (Or.inr this)
  · intro e he
    unfold validate_rule_content
    simp only [List.mem_append]
    exact Or.inr he

/-- Witness for claim C5 at a concrete document. -/
theorem c5_compat_error_accumulates_witness :
    (c5Doc.rule_type.getD "" = "hybrid"
      ∧ (c5Doc.compatible_models.getD []).isEmpty = true)
    ∧ ((validate_rule_content c5Doc).count
          "AI rules must specify compatible_models" = 1
      ∧ (pyStartsWith (c5Doc.id.getD "") "tavoai-" = false →
          idErrorMsg (c5Doc.id.getD "") ∈ validate_rule_content c5Doc)
      ∧ ((c5Doc.heuristics.getD []).isEmpty = true →
          "Non-AI-only rules must have heuristics" ∈ validate_rule_content c5Doc)
      ∧ ((c5Doc.ai_analysis.getD []).isEmpty = true →
          "AI rules must have ai_analysis section" ∈ validate_rule_content c5Doc)
      ∧ (∀ e ∈ standardsErrors c5Doc, e ∈ validate_rule_content c5Doc)) :=
  ⟨⟨by decide, by decide⟩,
    c5_compat_error_accumulates c5Doc (by decide) (by decide)⟩

/-- Claim C6: evaluation of `_validate_standards` at the repository's own
canonical OWASP-LLM identifier.  "LLM01" — the form "LLM" followed by two
digits that the claim, the code's own error message "(should be LLMXX)" and
the repository's sample data (`generate-sarif.py`, `create_sample_results`)
all present as valid — is rejected, because the code demands length exactly
4; conversely the 4-character non-digit entry "LLMX" passes.  The CWE and
CAPEC prefix checks behave as claimed. -/
theorem c6_owasp_llm01_rejected :
    validate_standards { owasp_llm := some ["LLM01"] } =
      ["Invalid OWASP LLM format: LLM01 (should be LLMXX)"]
    ∧ validate_standards { owasp_llm := some ["LLMX"] } = []
    ∧ validate_standards { cwe := some ["CWE-77", "89"] } =
        ["Invalid CWE format: 89 (should be CWE-XXX)"]
    ∧ validate_standards { capec := some ["137", "CAPEC-137"] } =
        ["Invalid CAPEC format: 137 (should be CAPEC-XXX)"] := by
  decide

end ValidateRules

namespace BundleManifests

/-- Claim C2: evaluation of manifest creation on a bundle whose `rules/`
subdirectory does not exist.  `_analyze_bundle_rules` early-returns a dict
carrying only the `rules`, `categories` and `severities` keys, so
`create_bundle_manifest` raises `KeyError` at `analysis["rule_count"]`
instead of succeeding with `rule_count = 0` and empty artifacts as the claim
states. -/
theorem c2_missing_rules_dir_raises :
    create_bundle_manifest "2025-01-01T00:00:00Z" c2Bundle =
      .error "KeyError: rule_count"
    ∧ analyze_bundle_rules c2Bundle =
        { rules := [], categories := [], severities := [] } :=
  ⟨rfl, rfl⟩

/-- Claim C3: for every rule-file content that cannot be parsed — it carries
the heredoc contamination markers, or `yaml.safe_load` raises, or it yields
`None` (empty document) — the loader returns, without raising, the default
record derived purely from the filename stem: `id` = stem, `name` =
title-cased stem (separators normalised to spaces), version "1.0", severity
"medium", category "security", empty standards mapping and empty tags. -/
theorem c3_parse_failure_default (stem content : String)
    (parsed : ParseOutcome)
    (h : hasHeredocMarkers content = true
        ∨ (∃ m, parsed = .err m) ∨ parsed = .ok none) :
    load_rule_metadata stem content parsed = get_default_metadata stem
    ∧ (load_rule_metadata stem content parsed).id = stem
    ∧ (load_rule_metadata stem content parsed).name =
        pyTitle (pyReplace1 '_' ' ' (pyReplace1 '-' ' ' stem))
    ∧ (load_rule_metadata stem content parsed).version = "1.0"
    ∧ (load_rule_metadata stem content parsed).severity = "medium"
    ∧ (load_rule_metadata stem content parsed).category = "security"
    ∧ (load_rule_metadata stem content parsed).standards = []
    ∧ (load_rule_metadata stem content parsed).tags = [] := by
  have hdef : load_rule_metadata stem content parsed =
      get_default_metadata stem := by
    rcases h with hm | ⟨m, he⟩ | hn
    · simp [load_rule_metadata, hm]
    · subst he; simp [load_rule_metadata]
    · subst hn; simp [load_rule_metadata]
  rw [hdef]
  exact ⟨rfl, rfl, rfl, rfl, rfl, rfl, rfl, rfl⟩

/-- Witness for claim C3 at a concrete corrupted file. -/
theorem c3_parse_failure_default_witness :
    (hasHeredocMarkers "cat > rule.yaml <<EOF" = true
      ∨ (∃ m, (ParseOutcome.ok none) = .err m)
      ∨ (ParseOutcome.ok none) = .ok none)
    ∧ (load_rule_metadata "prompt-injection" "cat > rule.yaml <<EOF"
          (.ok none) = get_default_metadata "prompt-injection"
      ∧ (load_rule_metadata "prompt-injection" "cat > rule.yaml <<EOF"
          (.ok none)).id = "prompt-injection"
      ∧ (load_rule_metadata "prompt-injection" "cat > rule.yaml <<EOF"
          (.ok none)).name =
          pyTitle (pyReplace1 '_' ' ' (pyReplace1 '-' ' ' "prompt-injection"))
      ∧ (load_rule_metadata "prompt-injection" "cat > rule.yaml <<EOF"
          (.ok none)).version = "1.0"
      ∧ (load_rule_metadata "prompt-injection" "cat > rule.yaml <<EOF"
          (.ok none)).severity = "medium"
      ∧ (load_rule_metadata "prompt-injection" "cat > rule.yaml <<EOF"
          (.ok none)).category = "security"
      ∧ (load_rule_metadata "prompt-injection" "cat > rule.yaml <<EOF"
          (.ok none)).standards = []
      ∧ (load_rule_metadata "prompt-injection" "cat > rule.yaml <<EOF"
          (.ok none)).tags = []) :=
  ⟨Or.inl (by decide),
    c3_parse_failure_default "prompt-injection" "cat > rule.yaml <<EOF"
      (.ok none) (Or.inl (by decide))⟩

/-- Claim C9: manifest generation is a pure function of the bundle
directory's contents, so two runs over an unchanged bundle (any two
generation timestamps) produce manifests identical in every field except
`created_at`/`updated_at` — including the error outcome on degenerate
bundles. -/
theorem c9_manifest_idempotent (t1 t2 : String) (b : BundleDir) :
    (create_bundle_manifest t1 b).map Manifest.stripTimestamps
      = (create_bundle_manifest t2 b).map Manifest.stripTimestamps := by
  cases hrc : (analyze_bundle_rules b).rule_count with
  | none => simp [create_bundle_manifest, hrc]
  | some rc =>
    cases hst : (analyze_bundle_rules b).standards with
    | none => simp [create_bundle_manifest, hrc, hst]
    | some stds =>
      simp [create_bundle_manifest, hrc, hst, Except.map, Manifest.stripTimestamps]

end BundleManifests

namespace GenerateSarif

/-- Claim C7 (counterexample): the severity string "HIGH" is none of the
five listed severities, so the claim sends it to "warning", but the code
lowercases before the lookup and returns "error". -/
theorem c7_counterexample :
    map_severity_to_level c7Sev = "error"
    ∧ ¬ c7Sev = "critical" ∧ ¬ c7Sev = "high" ∧ ¬ c7Sev = "medium"
    ∧ ¬ c7Sev = "low" ∧ ¬ c7Sev = "info"
    ∧ ¬ map_severity_to_level c7Sev = "warning" := by
  decide

/-- Claim C7 (amended): the severity-to-level mapping is applied to the
lowercased severity string: lowercased "critical"/"high" map to "error",
"medium" to "warning", "low"/"info" to "note", and any other lowercased
severity maps to "warning". -/
theorem c7_severity_mapping (s : String) :
    map_severity_to_level s = severityLevelSpec (pyLower s) := by
  simp only [map_severity_to_level, severityLevelSpec]
  split_ifs <;> simp_all

/-- Claim C8: a finding with a file path, severity "critical" and no line
field nor any other location detail yields a result whose level is "error"
and whose locations array is exactly the one artifact location for the file
path, with no region attached. -/
theorem c8_critical_no_line (f : Finding) (idx : Nat) (p : String)
    (hfp : f.file_path = some p)
    (hsev : f.severity = some "critical")
    (hline : f.line = none) (hsl : f.start_line = none)
    (hel : f.end_line = none) (hcol : f.column = none)
    (hecol : f.end_column = none) (hsnip : f.snippet = none) :
    (create_result_entry f idx).level = "error"
    ∧ (create_result_entry f idx).locations =
        [{ uri := p, region := none }] := by
  constructor
  · have : (create_result_entry f idx).level =
        map_severity_to_level "critical" := by
      simp [create_result_entry, hsev]
    rw [this]
    rfl
  · have hreg : buildRegion f = none := by
      simp [buildRegion, hline, hsl, hel, hcol, hecol, hsnip]
    simp [create_result_entry, hfp, hreg]

/-- Witness for claim C8 at a concrete finding. -/
theorem c8_critical_no_line_witness :
    (c8Finding.file_path = some "src/chat.py"
      ∧ c8Finding.severity = some "critical"
      ∧ c8Finding.line = none ∧ c8Finding.start_line = none
      ∧ c8Finding.end_line = none ∧ c8Finding.column = none
      ∧ c8Finding.end_column = none ∧ c8Finding.snippet = none)
    ∧ ((create_result_entry c8Finding 0).level = "error"
      ∧ (create_result_entry c8Finding 0).locations =
          [{ uri := "src/chat.py", region := none }]) :=
  ⟨⟨rfl, rfl, rfl, rfl, rfl, rfl, rfl, rfl⟩,
    c8_critical_no_line c8Finding 0 "src/chat.py"
      rfl rfl rfl rfl rfl rfl rfl rfl⟩

/-- The ids of the rules array seen through `List.map`. -/
theorem get_map_id (rules : List RuleDef) (i : Nat)
    (h : i < (rules.map RuleDef.id).length) :
    (rules.map RuleDef.id).get ⟨i, h⟩ =
      (rules.get ⟨i, by simpa using h⟩).id := by
  simp [List.get_eq_getElem, List.getElem_map]

/-- One loop iteration preserves the `generate_sarif` invariant, and the
rule ids after the step are the previous ids plus the finding's own id. -/
theorem processFinding_inv {s : SarifState} (h : Inv s) (f : Finding) :
    Inv (processFinding s f)
    ∧ ∀ k, k ∈ (processFinding s f).rules.map RuleDef.id ↔
        (k ∈ s.rules.map RuleDef.id ∨ k = ridOf f) := by
  obtain ⟨hm, hn, hr⟩ := h
  cases hl : alookup s.rulesMap (f.rule_id.getD "unknown") with
  | some idx =>
    have hfi : firstIdx (s.rules.map RuleDef.id) (f.rule_id.getD "unknown")
        = some idx := by rw [← hm]; exact hl
    obtain ⟨hlt, hget⟩ := firstIdx_spec hfi
    have hmem : f.rule_id.getD "unknown" ∈ s.rules.map RuleDef.id :=
      hget ▸ List.get_mem _ _ _
    constructor
    · refine ⟨?_, ?_, ?_⟩ <;> simp only [processFinding, hl]
      · exact hm
      · exact hn
      · intro r hrm
        rcases List.mem_append.mp hrm with hold | hnew
        · exact hr r hold
        · rw [List.mem_singleton] at hnew
          subst hnew
          refine ⟨by simpa using hlt, ?_⟩
          have hid : (s.rules.get ⟨idx, by simpa using hlt⟩).id
              = f.rule_id.getD "unknown" := by
            rw [← get_map_id s.rules idx hlt]
            exact hget
          simpa [create_result_entry] using hid
    · intro k
      simp only [processFinding, hl]
      constructor
      · exact Or.inl
      · rintro (hk | hk)
        · exact hk
        · subst hk; exact hmem
  | none =>
    have hfi : firstIdx (s.rules.map RuleDef.id) (f.rule_id.getD "unknown")
        = none := by rw [← hm]; exact hl
    have hnotmem := firstIdx_eq_none.mp hfi
    have hmapnew : (s.rules ++ [create_rule_definition f]).map RuleDef.id
        = s.rules.map RuleDef.id ++ [f.rule_id.getD "unknown"] := by
      simp [create_rule_definition]
    constructor
    · refine ⟨?_, ?_, ?_⟩ <;> simp only [processFinding, hl]
      · intro k
        rw [alookup_append, hmapnew]
        cases hfk : alookup s.rulesMap k with
        | some v =>
          rw [firstIdx_concat_of_some (show firstIdx _ k = some v by
            rw [← hm]; exact hfk)]
        | none =>
          rw [firstIdx_concat_of_none (show firstIdx _ k = none by
            rw [← hm]; exact hfk)]
          simp only [alookup]
          by_cases hk : k = f.rule_id.getD "unknown"
          · simp [hk]
          · simp [hk]
      · rw [hmapnew]
        exact List.Nodup.append hn (List.nodup_singleton _)
          (by simpa [List.disjoint_singleton] using hnotmem)
      · intro r hrm
        rcases List.mem_append.mp hrm with hold | hnew
        · obtain ⟨hlt2, hget2⟩ := hr r hold
          refine ⟨by simp; omega, ?_⟩
          have : (s.rules ++ [create_rule_definition f]).get
              ⟨r.ruleIndex, by simp; omega⟩ = s.rules.get ⟨r.ruleIndex, hlt2⟩ := by
            simp [List.get_eq_getElem, List.getElem_append_left hlt2]
          rw [this]
          exact hget2
        · rw [List.mem_singleton] at hnew
          subst hnew
          refine ⟨by simp [create_result_entry], ?_⟩
          have hlast : (s.rules ++ [create_rule_definition f]).get
              ⟨s.rules.length, by simp⟩ = create_rule_definition f := by
            simp [List.get_eq_getElem, List.getElem_concat_length]
          have hidx : (create_result_entry f
              ((s.rules ++ [create_rule_definition f]).length - 1)).ruleIndex
              = s.rules.length := by
            simp [create_result_entry]
          simp only [hidx, hlast]
          rfl
    · intro k
      simp only [processFinding, hl]
      rw [hmapnew]
      simp [ridOf]

/-- The invariant propagates through the whole fold, and the final rule ids
are exactly the initial ones together with the findings' rule ids. -/
theorem foldl_inv (fs : List Finding) (s : SarifState) (h : Inv s) :
    Inv (fs.foldl processFinding s)
    ∧ ∀ k, k ∈ (fs.foldl processFinding s).rules.map RuleDef.id ↔
        (k ∈ s.rules.map RuleDef.id ∨ k ∈ fs.map ridOf) := by
  induction fs generalizing s with
  | nil =>
    refine ⟨h, fun k => ?_⟩
    simp
  | cons f t ih =>
    obtain ⟨h1, h2⟩ := processFinding_inv h f
    obtain ⟨h3, h4⟩ := ih (processFinding s f) h1
    refine ⟨h3, fun k => ?_⟩
    rw [List.foldl_cons, h4 k, h2 k]
    simp [or_assoc]

/-- Claim C10: in the generated SARIF run, each distinct rule id occurring
among the findings produces exactly one rule definition in
`runs[0].tool.driver.rules`, and every result's `ruleIndex` is the index of
the unique rule definition whose id equals the result's `ruleId`. -/
theorem c10_rule_indexing (findings : List Finding) :
    (∀ rid, ((generate_sarif findings).rules.map RuleDef.id).count rid
        = if rid ∈ findings.map ridOf then 1 else 0)
    ∧ ∀ r ∈ (generate_sarif findings).results,
        ∃ h : r.ruleIndex < (generate_sarif findings).rules.length,
          ((generate_sarif findings).rules.get ⟨r.ruleIndex, h⟩).id = r.ruleId
          ∧ ∀ j (hj : j < (generate_sarif findings).rules.length),
              ((generate_sarif findings).rules.get ⟨j, hj⟩).id = r.ruleId →
                j = r.ruleIndex := by
  have h0 : Inv ⟨[], [], []⟩ :=
    ⟨fun _ => rfl, by simp, fun r hr => absurd hr (List.not_mem_nil r)⟩
  obtain ⟨⟨hm, hn, hres⟩, hmem⟩ := foldl_inv findings ⟨[], [], []⟩ h0
  constructor
  · intro rid
    by_cases h : rid ∈ findings.map ridOf
    · rw [if_pos h]
      exact List.count_eq_one_of_mem hn ((hmem rid).mpr (Or.inr h))
    · rw [if_neg h]
      apply List.count_eq_zero.mpr
      intro hc
      rcases (hmem rid).mp hc with habs | hfs
      · simp at habs
      · exact h hfs
  · intro r hr
    obtain ⟨hlt, hid⟩ := hres r hr
    refine ⟨hlt, hid, ?_⟩
    intro j hj hjid
    have hlj : j < ((generate_sarif findings).rules.map RuleDef.id).length := by
      simpa using hj
    have hli : r.ruleIndex <
        ((generate_sarif findings).rules.map RuleDef.id).length := by
      simpa using hlt
    have e1 : ((generate_sarif findings).rules.map RuleDef.id).get ⟨j, hlj⟩
        = r.ruleId := by
      rw [get_map_id]
      exact hjid
    have e2 : ((generate_sarif findings).rules.map RuleDef.id).get
        ⟨r.ruleIndex, hli⟩ = r.ruleId := by
      rw [get_map_id]
      exact hid
    have := hn.get_inj_iff.mp (e1.trans e2.symm)
    exact congrArg Fin.val this

/-- Witness for claim C10 on a concrete findings list in which the rule id
"r1" occurs twice and "r2" once. -/
theorem c10_rule_indexing_witness :
    ("r1" ∈ c10Findings.map ridOf
      ∧ ((generate_sarif c10Findings).rules.map RuleDef.id).count "r1" =
          if "r1" ∈ c10Findings.map ridOf then 1 else 0)
    ∧ (create_result_entry c10fA 0 ∈ (generate_sarif c10Findings).results
      ∧ ∃ h : (create_result_entry c10fA 0).ruleIndex <
            (generate_sarif c10Findings).rules.length,
          ((generate_sarif c10Findings).rules.get
              ⟨(create_result_entry c10fA 0).ruleIndex, h⟩).id =
            (create_result_entry c10fA 0).ruleId
          ∧ ∀ j (hj : j < (generate_sarif c10Findings).rules.length),
              ((generate_sarif c10Findings).rules.get ⟨j, hj⟩).id =
                (create_result_entry c10fA 0).ruleId →
                  j = (create_result_entry c10fA 0).ruleIndex) :=
  ⟨⟨by decide, (c10_rule_indexing c10Findings).1 "r1"⟩,
   ⟨by decide, (c10_rule_indexing c10Findings).2
      (create_result_entry c10fA 0) (by decide)⟩⟩

end GenerateSarif
